import Mathlib

/-!
Shallow embedding of the AIAuditor anomaly-detection and evaluation engine
(`backend/routers/models.py`, `backend/routers/evaluation.py`,
`backend/database.py`).

Conventions of the embedding:
* SQLite tables are Lean lists of structures; `INSERT` appends a row,
  `DELETE FROM` replaces the list with `[]`.
* Python floats are modelled as exact rationals; the float `NaN` produced by
  pandas sample standard deviation on a singleton population is modelled by
  `Option ℚ` with `none` for `NaN` (IEEE comparisons with `NaN` are `false`,
  and arithmetic on `NaN` yields `NaN`, which the definitions reproduce).
* Calls into scikit-learn that fit a model with a fixed `random_state`
  (`IsolationForest`, `TfidfVectorizer`) are deterministic functions of
  their input; they are taken as explicit function parameters.
* Number formatting inside explanation strings (`:.1f`, `:.2f`, `:,.0f`) is
  not modelled: a price-detector explanation is carried as a constructor
  holding its exact numeric content, while process- and text-detector
  explanations (whose only interpolations are integers and identifiers) are
  built as literal strings.
-/

/-- Row of the `tenders` table (`database.py`, `CREATE TABLE tenders`). -/
structure Tender where
  tender_id : String
  procuring_entity : String
  tender_title : String
  category : String
  procurement_method : String
  tender_duration_days : Int
  number_of_bidders : Int
  tender_description : String
  technical_specs : Option String
deriving DecidableEq

/-- Row of the `contracts` table (`database.py`, `CREATE TABLE contracts`). -/
structure Contract where
  contract_id : String
  tender_id : String
  supplier_name : String
  item_description : String
  unit_price : ℚ
  quantity : Int
deriving DecidableEq

/-- Row of the `market_prices` table (`database.py`, `CREATE TABLE market_prices`). -/
structure MarketPrice where
  item_name : String
  category : String
  unit_price : ℚ
  source : String
deriving DecidableEq

/-- Numeric content of a price-detector explanation string
(`models.py`, lines 122-146).  `noData` is the string
"No market data available for item"; `above` carries the percentage
deviation, the z-score and the overpayment amount interpolated into the
ABOVE-market string; `below` carries percentage and z-score of the
BELOW-market string; `withinRange` carries the z-score of the
"Price within normal range" string (`none` when the z-score is `NaN`). -/
inductive PriceExpl where
  | noData (item : String)
  | above (pct z overpayment : ℚ)
  | below (pct z : ℚ)
  | withinRange (z : Option ℚ)
deriving DecidableEq

/-- Explanation column of an audit result: a literal string for the process
and text detectors, a `PriceExpl` for the price detector. -/
inductive Expl where
  | plain (s : String)
  | price (e : PriceExpl)
deriving DecidableEq

/-- Row of the `audit_results` table (`database.py`, `CREATE TABLE
audit_results`).  `anomaly_score = none` models a `NaN` float (stored as
SQL `NULL`). -/
structure AuditRow where
  tender_id : String
  contract_id : Option String
  model_type : String
  is_anomaly : Bool
  anomaly_score : Option ℚ
  explanation : Expl
deriving DecidableEq

/-- Store mutation shared by all three detectors (`models.py`, lines 41-45,
111-115 and 197-201 followed by the insert loop): scan the current
`audit_results` rows and, as soon as one row of the running detector's
model type is found, call `AuditResultDB.delete_all()` — which deletes
EVERY audit row, not only the running model type's — then insert the newly
computed rows one by one. -/
def replaceResults (mt : String) (rows store : List AuditRow) : List AuditRow :=
  (if store.any (fun r => r.model_type == mt) then [] else store) ++ rows

/-- Classes of scikit-learn's `LabelEncoder.fit_transform`: the sorted list
of distinct values of the encoded column. -/
def encoderClasses (l : List String) : List String :=
  (l.mergeSort (fun a b => a ≤ b)).dedup

/-- Ordinal code assigned by `LabelEncoder.fit_transform`
(`models.py`, lines 24-25): index of the value in the sorted class list. -/
def methodCode (tenders : List Tender) (m : String) : ℕ :=
  (encoderClasses (tenders.map (fun t => t.procurement_method))).indexOf m

/-- Feature vector of one tender (`models.py`, line 27):
`(tender_duration_days, number_of_bidders, method_encoded)`. -/
def featVec (tenders : List Tender) (t : Tender) : Int × Int × ℕ :=
  (t.tender_duration_days, t.number_of_bidders, methodCode tenders t.procurement_method)

/-- Heuristic reasons attached to a process-detector result
(`models.py`, lines 55-61). -/
def processReasons (t : Tender) : List String :=
  (if t.tender_duration_days < 14 then
    ["Very short duration (" ++ toString t.tender_duration_days ++ " days)"] else []) ++
  (if t.number_of_bidders ≤ 2 then
    ["Low competition (" ++ toString t.number_of_bidders ++ " bidders)"] else []) ++
  (if t.procurement_method == "Restricted" then ["Restricted tender method"] else [])

/-- Result row the process detector builds for one tender
(`models.py`, lines 48-71), given the isolation forest's output for that
tender: `pred` is `fit_predict == -1` and `score` is `score_samples`;
the stored score is the negated sample score. -/
def processRowFor (t : Tender) (pred : Bool) (score : ℚ) : AuditRow :=
  { tender_id := t.tender_id
    contract_id := none
    model_type := "process"
    is_anomaly := pred
    anomaly_score := some (-score)
    explanation := .plain
      (if pred then String.intercalate (" | ") (processReasons t)
       else "Normal procurement process") }

/-- Rows computed by one run of the process detector (`models.py`, lines
22-71).  `forest` is the seeded `IsolationForest(n_estimators=100,
contamination=0.1, random_state=42)` fit on the feature matrix: a
deterministic function returning, per sample, the anomaly flag
(`fit_predict == -1`) and the `score_samples` value; scikit-learn returns
exactly one output pair per input sample. -/
def processRows (forest : List (Int × Int × ℕ) → List (Bool × ℚ))
    (tenders : List Tender) : List AuditRow :=
  let X := tenders.map (featVec tenders)
  (tenders.zip (forest X)).map (fun p => processRowFor p.1 p.2.1 p.2.2)

/-- Store state after one run of the process detector (`models.py`,
`detect_process_anomalies`, lines 41-71). -/
def processRun (forest : List (Int × Int × ℕ) → List (Bool × ℚ))
    (tenders : List Tender) (store : List AuditRow) : List AuditRow :=
  replaceResults "process" (processRows forest tenders) store

/-- Normalization applied to item names before joining contracts with
market prices (`models.py`, lines 99-100): lower-case the text and strip
every character outside `a`-`z`, `0`-`9`. -/
def normalizeText (s : String) : String :=
  String.mk ((s.data.map Char.toLower).filter (fun c => c.isLower || c.isDigit))

/-- Arithmetic mean used by the pandas aggregation (`models.py`, line 106). -/
def listMean (xs : List ℚ) : ℚ := xs.sum / (xs.length : ℚ)

/-- Sample variance with one delta degree of freedom, the square of the
pandas `std` aggregation for two or more samples (`models.py`, line 107). -/
def sampleVar (xs : List ℚ) : ℚ :=
  ((xs.map (fun x => (x - listMean xs) ^ 2)).sum) / ((xs.length : ℚ) - 1)

/-- Square root as computed in floating point, modelled over the
rationals: exact whenever the argument is the square of a nonnegative
rational (every root the claims below evaluate is of this shape); on other
nonnegative inputs it is some rational approximation, never consumed
exactly by a claim. -/
def ratSqrt (q : ℚ) : ℚ :=
  (Nat.sqrt q.num.natAbs : ℚ) / (Nat.sqrt q.den : ℚ)

/-- Sample standard deviation as computed by the pandas `('std','std')`
aggregation (`models.py`, line 107), default `ddof = 1`: `NaN` (modelled
as `none`) on fewer than two samples, otherwise the square root of the
sample variance. -/
def pandasStd (xs : List ℚ) : Option ℚ :=
  if xs.length ≤ 1 then none else some (ratSqrt (sampleVar xs))

/-- Row of the `market_stats` frame (`models.py`, lines 105-109): one
normalized item key with the mean, sample standard deviation and count of
its market-price population. -/
structure StatsRow where
  item_normalized : String
  mean : ℚ
  std : Option ℚ
  count : ℕ
deriving DecidableEq

/-- Unit prices of the market-price rows whose normalized item name equals
the group key (the pandas `groupby('item_normalized')['unit_price']`
group, `models.py`, line 105). -/
def groupVals (prices : List MarketPrice) (k : String) : List ℚ :=
  (prices.filter (fun p => normalizeText p.item_name == k)).map (fun p => p.unit_price)

/-- Distinct normalized item keys of the market-price table, one group key
per `market_stats` row.  (pandas sorts the group keys; the detector only
ever looks rows up by key equality, so the order of the rows is
irrelevant and plain deduplication is used here.) -/
def marketKeys (prices : List MarketPrice) : List String :=
  (prices.map (fun p => normalizeText p.item_name)).dedup

/-- Aggregated statistics row for one normalized item key
(`models.py`, lines 105-109). -/
def mkStatsRow (prices : List MarketPrice) (k : String) : StatsRow :=
  { item_normalized := k
    mean := listMean (groupVals prices k)
    std := pandasStd (groupVals prices k)
    count := (groupVals prices k).length }

/-- The `market_stats` frame (`models.py`, lines 105-109): one statistics
row per distinct normalized item key. -/
def marketStats (prices : List MarketPrice) : List StatsRow :=
  (marketKeys prices).map (mkStatsRow prices)

/-- Lookup of a contract's normalized item key in `market_stats`
(`models.py`, lines 120-122): the frame is filtered on key equality and
the first row, if any, is used. -/
def statsLookup (stats : List StatsRow) (k : String) : Option StatsRow :=
  (stats.filter (fun r => r.item_normalized == k)).head?

/-- Result row the price detector builds for one contract
(`models.py`, lines 118-157).  With a matching statistics row the z-score
is `0` when the population standard deviation is exactly `0`, `NaN`
(`none`) when the standard deviation is `NaN` (the float comparison
`NaN == 0` is false, so the code divides by `NaN`), and
`(unit_price - mean) / std` otherwise; the contract is anomalous iff
`|z| > 2.5` (false for `NaN`, as in IEEE comparison) and the stored score
is `|z|`. -/
def scoreContract (stats : List StatsRow) (c : Contract) : AuditRow :=
  match statsLookup stats (normalizeText c.item_description) with
  | none =>
      { tender_id := c.tender_id
        contract_id := some c.contract_id
        model_type := "price"
        is_anomaly := false
        anomaly_score := some 0
        explanation := .price (.noData c.item_description) }
  | some row =>
      let z : Option ℚ :=
        match row.std with
        | none => none
        | some s => if s = 0 then some 0 else some ((c.unit_price - row.mean) / s)
      match z with
      | none =>
          { tender_id := c.tender_id
            contract_id := some c.contract_id
            model_type := "price"
            is_anomaly := false
            anomaly_score := none
            explanation := .price (.withinRange none) }
      | some zv =>
          { tender_id := c.tender_id
            contract_id := some c.contract_id
            model_type := "price"
            is_anomaly := decide (|zv| > 5/2)
            anomaly_score := some |zv|
            explanation := .price
              (if |zv| > 5/2 then
                (if zv > 0 then
                  .above ((c.unit_price - row.mean) / row.mean * 100) zv
                    ((c.unit_price - row.mean) * (c.quantity : ℚ))
                 else
                  .below ((row.mean - c.unit_price) / row.mean * 100) zv)
               else .withinRange (some zv)) }

/-- Rows computed by one run of the price detector
(`models.py`, lines 96-157). -/
def priceRows (contracts : List Contract) (prices : List MarketPrice) : List AuditRow :=
  contracts.map (scoreContract (marketStats prices))

/-- Store state after one run of the price detector (`models.py`,
`detect_price_anomalies`, lines 111-157). -/
def priceRun (contracts : List Contract) (prices : List MarketPrice)
    (store : List AuditRow) : List AuditRow :=
  replaceResults "price" (priceRows contracts prices) store

/-- Brand keyword list of the text detector (`models.py`, lines 191-195). -/
def brandKeywords : List String :=
  ["herman miller", "dell", "hp", "lenovo", "apple", "microsoft",
   "samsung", "lg", "sony", "canon", "epson", "toyota", "nissan",
   "ford", "mercedes", "bmw", "cisco", "intel", "amd", "oracle"]

/-- Lower-casing of a whole string, the Python `str.lower()` on the ASCII
texts involved. -/
def toLowerStr (s : String) : String :=
  String.mk (s.data.map Char.toLower)

/-- Occurrence of `needle` as a contiguous substring of `hay`, the Python
`needle in hay` test on strings. -/
def containsSub (hay needle : String) : Bool :=
  go hay.data
where
  go : List Char → Bool
    | [] => needle.data.isEmpty
    | c :: rest => needle.data.isPrefixOf (c :: rest) || go rest

/-- Combined text field of one tender (`models.py`, line 180):
`tender_description + ' ' + technical_specs` with `NaN` specs filled by the
empty string. -/
def combinedText (t : Tender) : String :=
  t.tender_description ++ " " ++ t.technical_specs.getD ""

/-- Dot product of two equal-length vectors. -/
def dotQ (u v : List ℚ) : ℚ :=
  ((u.zip v).map (fun p => p.1 * p.2)).sum

/-- Cosine similarity as computed by
`sklearn.metrics.pairwise.cosine_similarity` (`models.py`, line 189), in
exact arithmetic: the dot product over the root of the product of the
squared norms.  On the values the claims below evaluate, the argument of
`ratSqrt` is the square of a rational and the root is exact. -/
def cosineSim (u v : List ℚ) : ℚ :=
  dotQ u v / ratSqrt (dotQ u u * dotQ v v)

/-- Row of the pairwise similarity matrix belonging to the document with
combined text `x` (`models.py`, lines 188-189, 210): cosine similarity of
`x` against every document of the corpus.  `tfidf` is the fitted
`TfidfVectorizer(max_features=500, stop_words='english',
ngram_range=(1,2))`, a deterministic function from a document's text to
its vector. -/
def simRow (tfidf : String → List ℚ) (texts : List String) (x : String) : List ℚ :=
  texts.map (fun y => cosineSim (tfidf x) (tfidf y))

/-- Collusion candidates of one tender (`models.py`, lines 210-212): every
corpus position whose similarity lies strictly between `0.85` and `1.0`,
paired here with its tender.  The filter runs over the whole similarity
row; the tender's own position carries similarity exactly `1.0` (for a
nonzero vector) and is excluded by the strict upper bound — but so is any
OTHER tender at similarity exactly `1.0`. -/
def matchedFor (tfidf : String → List ℚ) (tenders : List Tender) (t : Tender) :
    List (Tender × ℚ) :=
  (tenders.zip (simRow tfidf (tenders.map combinedText) (combinedText t))).filter
    (fun p => decide ((17/20 : ℚ) < p.2) && decide (p.2 < 1))

/-- Brands detected in one tender's combined text
(`models.py`, lines 205-207). -/
def detectedBrands (t : Tender) : List String :=
  brandKeywords.filter (fun b => containsSub (toLowerStr (combinedText t)) b)

/-- Maximum of a list of similarities, `np.max` on a nonempty array
(`models.py`, line 231); the code only evaluates it on a nonempty list. -/
def maxQ : List ℚ → ℚ
  | [] => 0
  | h :: r => r.foldl max h

/-- Result row the text detector builds for one tender (`models.py`, lines
204-239): anomalous iff a brand keyword occurs or a collusion candidate
exists; the confidence adds `0.5` for brand bias and the maximum matched
similarity for collusion, and the stored score caps the confidence at
`1.0`. -/
def textRowFor (tfidf : String → List ℚ) (tenders : List Tender) (t : Tender) :
    AuditRow :=
  let brands := detectedBrands t
  let matched := matchedFor tfidf tenders t
  let hasBrand := !brands.isEmpty
  let hasColl := !matched.isEmpty
  let isAnom := hasBrand || hasColl
  let conf : ℚ := (if hasBrand then 1/2 else 0) +
    (if hasColl then maxQ (matched.map (fun p => p.2)) else 0)
  { tender_id := t.tender_id
    contract_id := none
    model_type := "text"
    is_anomaly := isAnom
    anomaly_score := some (min conf 1)
    explanation := .plain
      (if isAnom then
        String.intercalate (" | ")
          ((if hasBrand then
              ["Brand bias detected: " ++ String.intercalate (", ") brands] else []) ++
           (if hasColl then
              ["High similarity to " ++ toString matched.length ++
               " other tender(s): " ++
               String.intercalate (", ")
                 ((matched.map (fun p => p.1.tender_id)).take 3)] else []))
       else "No text anomalies detected") }

/-- Rows computed by one run of the text detector
(`models.py`, lines 178-239). -/
def textRows (tfidf : String → List ℚ) (tenders : List Tender) : List AuditRow :=
  tenders.map (textRowFor tfidf tenders)

/-- Store state after one run of the text detector (`models.py`,
`detect_text_anomalies`, lines 197-239). -/
def textRun (tfidf : String → List ℚ) (tenders : List Tender)
    (store : List AuditRow) : List AuditRow :=
  replaceResults "text" (textRows tfidf tenders) store

/-- Heuristic ground-truth label of one tender (`evaluation.py`, line 27):
`tender_duration_days < 14 AND number_of_bidders <= 2`. -/
def groundTruth (t : Tender) : Bool :=
  decide (t.tender_duration_days < 14) && decide (t.number_of_bidders ≤ 2)

/-- Stored process-detector predictions, in store order
(`evaluation.py`, lines 23, 29). -/
def processPreds (store : List AuditRow) : List Bool :=
  (store.filter (fun r => r.model_type == "process")).map (fun r => r.is_anomaly)

/-- Compared (ground truth, prediction) pairs (`evaluation.py`, lines
27-30): the ground-truth series truncated to the prediction count
(`y_true[:len(process_predictions)]`), aligned by position. -/
def evalPairs (tenders : List Tender) (store : List AuditRow) : List (Bool × Bool) :=
  ((tenders.map groundTruth).take (processPreds store).length).zip (processPreds store)

/-- Entrywise confusion counts `(tn, fp, fn, tp)` of the compared pairs,
the entries of a full two-class `sklearn.metrics.confusion_matrix`. -/
def rawCounts : List (Bool × Bool) → ℕ × ℕ × ℕ × ℕ
  | [] => (0, 0, 0, 0)
  | (t, p) :: rest =>
    let r := rawCounts rest
    (r.1 + (if !t && !p then 1 else 0),
     r.2.1 + (if !t && p then 1 else 0),
     r.2.2.1 + (if t && !p then 1 else 0),
     r.2.2.2 + (if t && p then 1 else 0))

/-- Whether both boolean classes occur among the compared labels (ground
truths and predictions together).  `sklearn.metrics.confusion_matrix`
returns a `k x k` matrix for `k` distinct observed labels, so its size is
`4` exactly when this holds. -/
def twoClasses (pairs : List (Bool × Bool)) : Bool :=
  pairs.any (fun q => q.1 || q.2) && pairs.any (fun q => !q.1 || !q.2)

/-- Confusion counts `(tn, fp, fn, tp)` as unpacked by the evaluation
module (`evaluation.py`, lines 37-38): the ravelled confusion matrix when
it is `2 x 2`, and `(0, 0, 0, 0)` otherwise. -/
def cmCounts (pairs : List (Bool × Bool)) : ℕ × ℕ × ℕ × ℕ :=
  if twoClasses pairs then rawCounts pairs else (0, 0, 0, 0)

/-- Accuracy as computed by `sklearn.metrics.accuracy_score`
(`evaluation.py`, line 32): fraction of positions where ground truth and
prediction agree. -/
def accuracyQ (pairs : List (Bool × Bool)) : ℚ :=
  ((pairs.filter (fun q => q.1 == q.2)).length : ℚ) / (pairs.length : ℚ)

/-- Python exception as visible to the routers: a `fastapi.HTTPException`
(which subclasses `Exception`) or any other exception carrying its string
rendering. -/
inductive Exn where
  | httpExc (status : Nat) (detail : String)
  | other (msg : String)
deriving DecidableEq

/-- The Python `str(e)` of an exception; for a starlette `HTTPException`
this is `"status: detail"`. -/
def strOfExn : Exn → String
  | .httpExc s d => toString s ++ ": " ++ d
  | .other m => m

/-- The `try/except` wrapper shared by every router (`models.py`, lines
16, 80-81, 86, 166-167, 172, 248-249; `evaluation.py`, lines 13,
175-176): `except Exception as e` catches EVERY exception — including the
`HTTPException(404)` raised inside the `try` body, since `HTTPException`
subclasses `Exception` — and re-raises `HTTPException(500, str(e))`. -/
def wrapEndpoint {α : Type} (body : Except Exn α) : Except Exn α :=
  match body with
  | .ok a => .ok a
  | .error e => .error (.httpExc 500 (strOfExn e))

/-- Body of `detect_process_anomalies` (`models.py`, lines 17-78): raise
`HTTPException(404, "No tenders found")` on an empty tender table,
otherwise compute and store the detector rows. -/
def processBody (forest : List (Int × Int × ℕ) → List (Bool × ℚ))
    (tenders : List Tender) (store : List AuditRow) : Except Exn (List AuditRow) :=
  if tenders.isEmpty then .error (.httpExc 404 "No tenders found")
  else .ok (processRun forest tenders store)

/-- The `/process-anomaly` endpoint: body plus catch-all wrapper. -/
def processEndpoint (forest : List (Int × Int × ℕ) → List (Bool × ℚ))
    (tenders : List Tender) (store : List AuditRow) : Except Exn (List AuditRow) :=
  wrapEndpoint (processBody forest tenders store)

/-- Body of `detect_price_anomalies` (`models.py`, lines 87-164): raise
`HTTPException(404)` when the contract or the market-price table is
empty, otherwise compute and store the detector rows. -/
def priceBody (contracts : List Contract) (prices : List MarketPrice)
    (store : List AuditRow) : Except Exn (List AuditRow) :=
  if contracts.isEmpty then .error (.httpExc 404 "No contracts found")
  else if prices.isEmpty then .error (.httpExc 404 "No market prices found")
  else .ok (priceRun contracts prices store)

/-- The `/price-anomaly` endpoint: body plus catch-all wrapper. -/
def priceEndpoint (contracts : List Contract) (prices : List MarketPrice)
    (store : List AuditRow) : Except Exn (List AuditRow) :=
  wrapEndpoint (priceBody contracts prices store)

/-- Body of `detect_text_anomalies` (`models.py`, lines 173-246): raise
`HTTPException(404, "No tenders found")` on an empty tender table,
otherwise compute and store the detector rows. -/
def textBody (tfidf : String → List ℚ) (tenders : List Tender)
    (store : List AuditRow) : Except Exn (List AuditRow) :=
  if tenders.isEmpty then .error (.httpExc 404 "No tenders found")
  else .ok (textRun tfidf tenders store)

/-- The `/text-anomaly` endpoint: body plus catch-all wrapper. -/
def textEndpoint (tfidf : String → List ℚ) (tenders : List Tender)
    (store : List AuditRow) : Except Exn (List AuditRow) :=
  wrapEndpoint (textBody tfidf tenders store)

/-- Body of `evaluate_models` (`evaluation.py`, lines 14-38): raise
`HTTPException(404, "No data available for evaluation")` when the tender
or the audit-result table is empty, otherwise compute the classification
metrics (the confusion counts and accuracy are the part of the payload
under verification here). -/
def evalBody (tenders : List Tender) (store : List AuditRow) :
    Except Exn ((ℕ × ℕ × ℕ × ℕ) × ℚ) :=
  if tenders.isEmpty || store.isEmpty then
    .error (.httpExc 404 "No data available for evaluation")
  else .ok (cmCounts (evalPairs tenders store), accuracyQ (evalPairs tenders store))

/-- The `/evaluate` endpoint: body plus catch-all wrapper. -/
def evalEndpoint (tenders : List Tender) (store : List AuditRow) :
    Except Exn ((ℕ × ℕ × ℕ × ℕ) × ℚ) :=
  wrapEndpoint (evalBody tenders store)

/-- Fixture: statistics row with mean `100` and standard deviation `10`. -/
def statWidget : StatsRow :=
  { item_normalized := "widget", mean := 100, std := some 10, count := 3 }

/-- Fixture: contract priced at `130` for `7` units of `Widget`. -/
def cWidget : Contract :=
  { contract_id := "C-001", tender_id := "T-001", supplier_name := "Acme",
    item_description := "Widget", unit_price := 130, quantity := 7 }

/-- Fixture: market price for an item unrelated to `cWidget`. -/
def mpPen : MarketPrice :=
  { item_name := "Pen", category := "Office", unit_price := 50, source := "survey" }

/-- Fixture: the only market sample for the `widget` population. -/
def mpWidget : MarketPrice :=
  { item_name := "Widget!", category := "Office", unit_price := 100, source := "survey" }

/-- Fixture: an `Open` tender with long duration and healthy competition. -/
def tOpen : Tender :=
  { tender_id := "T-100", procuring_entity := "Ministry", tender_title := "Road works",
    category := "Works", procurement_method := "Open", tender_duration_days := 20,
    number_of_bidders := 5, tender_description := "grade and surface the road", 
    technical_specs := none }

/-- Fixture: a forest that flags its single sample as anomalous. -/
def forestFlagOne : List (Int × Int × ℕ) → List (Bool × ℚ) :=
  fun X => X.map (fun _ => (true, -1/2))

/-- Fixture: stored process row that flags nothing. -/
def procRowNormal : AuditRow :=
  { tender_id := "T-100", contract_id := none, model_type := "process",
    is_anomaly := false, anomaly_score := some 0,
    explanation := .plain "Normal procurement process" }

/-- Fixture: stored process row that flags its tender. -/
def procRowFlag : AuditRow :=
  { tender_id := "T-200", contract_id := none, model_type := "process",
    is_anomaly := true, anomaly_score := some 1,
    explanation := .plain "Very short duration (5 days)" }

/-- Fixture: a short tender with low competition (heuristic ground truth
true). -/
def tShort : Tender :=
  { tender_id := "T-200", procuring_entity := "Ministry", tender_title := "Supplies",
    category := "Goods", procurement_method := "Open", tender_duration_days := 5,
    number_of_bidders := 1, tender_description := "urgent supplies", 
    technical_specs := none }

/-- Fixture: a tender whose description names the brand `Dell`. -/
def tBrand : Tender :=
  { tender_id := "T-300", procuring_entity := "Ministry", tender_title := "Laptops",
    category := "Goods", procurement_method := "Open", tender_duration_days := 21,
    number_of_bidders := 4, tender_description := "Supply of Dell laptops", 
    technical_specs := none }

/-- Fixture: one-dimensional vectorizer mapping every document to `[1]`. -/
def tfOne : String → List ℚ := fun _ => [1]

/-- Fixture: first of two tenders with identical combined texts. -/
def tD1 : Tender :=
  { tender_id := "T-401", procuring_entity := "Ministry", tender_title := "Works",
    category := "Works", procurement_method := "Open", tender_duration_days := 30,
    number_of_bidders := 5, tender_description := "identical scope of works", 
    technical_specs := none }

/-- Fixture: second tender, distinct id, same combined text as `tD1`. -/
def tD2 : Tender :=
  { tender_id := "T-402", procuring_entity := "Agency", tender_title := "Works",
    category := "Works", procurement_method := "Open", tender_duration_days := 30,
    number_of_bidders := 5, tender_description := "identical scope of works", 
    technical_specs := none }

/-- Fixture: a stored price-detector row present before a process rerun. -/
def priceRowOld : AuditRow :=
  { tender_id := "T-001", contract_id := some "C-001", model_type := "price",
    is_anomaly := false, anomaly_score := some 0,
    explanation := .price (.noData "Pen") }

theorem statsLookup_map_mem (prices : List MarketPrice) (k : String) :
    ∀ (ks : List String), k ∈ ks →
      ((ks.map (mkStatsRow prices)).filter
        (fun r => r.item_normalized == k)).head? = some (mkStatsRow prices k)
  | [], h => absurd h (List.not_mem_nil k)
  | a :: ks, h => by
    by_cases hak : a = k
    · subst hak
      simp [mkStatsRow, List.filter]
    · have hk : k ∈ ks := by
        cases List.mem_cons.mp h with
        | inl h1 => exact absurd h1.symm hak
        | inr h2 => exact h2
      have hne : ((mkStatsRow prices a).item_normalized == k) = false := by
        simp [mkStatsRow, hak]
      simpa [List.filter, hne] using statsLookup_map_mem prices k ks hk

/-- Looking a present group key up in `market_stats` yields its aggregated
statistics row. -/
theorem statsLookup_marketStats (prices : List MarketPrice) (k : String)
    (hk : k ∈ marketKeys prices) :
    statsLookup (marketStats prices) k = some (mkStatsRow prices k) :=
  statsLookup_map_mem prices k (marketKeys prices) hk

/-- Looking an absent group key up in `market_stats` yields no row. -/
theorem statsLookup_marketStats_none (prices : List MarketPrice) (k : String)
    (hk : k ∉ marketKeys prices) :
    statsLookup (marketStats prices) k = none := by
  unfold statsLookup marketStats
  rw [List.filter_eq_nil_iff.mpr, List.head?_nil]
  intro r hr
  rcases List.mem_map.mp hr with ⟨a, ha, rfl⟩
  simp only [mkStatsRow, beq_iff_eq]
  intro hak
  exact hk (hak ▸ ha)

theorem ratSqrt_mul_self (d : ℚ) (hd : 0 ≤ d) : ratSqrt (d * d) = d := by
  unfold ratSqrt
  rw [Rat.mul_self_num, Rat.mul_self_den, Int.natAbs_mul, Nat.sqrt_eq, Nat.sqrt_eq]
  rw [Int.cast_natAbs, abs_of_nonneg (by exact_mod_cast Rat.num_nonneg.mpr hd)]
  exact_mod_cast Rat.num_div_den d

theorem dotQ_self_nonneg (u : List ℚ) : 0 ≤ dotQ u u := by
  induction u with
  | nil => simp [dotQ]
  | cons a u ih =>
    have : dotQ (a :: u) (a :: u) = a * a + dotQ u u := by simp [dotQ]
    rw [this]
    exact add_nonneg (mul_self_nonneg a) ih

/-- Cosine similarity of a vector with itself is exactly `1` whenever the
vector is nonzero; in particular two documents with identical text share
one vector and have pairwise similarity exactly `1`. -/
theorem cosineSim_self (u : List ℚ) (h : dotQ u u ≠ 0) : cosineSim u u = 1 := by
  unfold cosineSim
  rw [ratSqrt_mul_self _ (dotQ_self_nonneg u), div_self h]

theorem rawCounts_sum (pairs : List (Bool × Bool)) :
    (rawCounts pairs).1 + (rawCounts pairs).2.1 + (rawCounts pairs).2.2.1 +
      (rawCounts pairs).2.2.2 = pairs.length := by
  induction pairs with
  | nil => simp [rawCounts]
  | cons q rest ih =>
    obtain ⟨t, p⟩ := q
    simp only [rawCounts, List.length_cons]
    cases t <;> cases p <;> simp <;> omega

theorem rawCounts_agree (pairs : List (Bool × Bool)) :
    ((pairs.filter (fun q => q.1 == q.2)).length) =
      (rawCounts pairs).2.2.2 + (rawCounts pairs).1 := by
  induction pairs with
  | nil => simp [rawCounts]
  | cons q rest ih =>
    obtain ⟨t, p⟩ := q
    simp only [rawCounts, List.filter]
    cases t <;> cases p <;> simp [ih] <;> omega

theorem replaceResults_filter_self (mt : String) (rows store : List AuditRow)
    (hrows : ∀ r ∈ rows, r.model_type = mt) :
    (replaceResults mt rows store).filter (fun r => r.model_type == mt) = rows := by
  have hrowsf : rows.filter (fun r => r.model_type == mt) = rows :=
    List.filter_eq_self.mpr (fun r hr => by simp [hrows r hr])
  unfold replaceResults
  by_cases h : store.any (fun r => r.model_type == mt)
  · simp [h, hrowsf]
  · have h2 : store.any (fun r => r.model_type == mt) = false := by simpa using h
    have hst : store.filter (fun r => r.model_type == mt) = [] :=
      List.filter_eq_nil_iff.mpr (List.any_eq_false.mp h2)
    rw [if_neg h, List.filter_append, hrowsf, hst, List.nil_append]

theorem replaceResults_rerun (mt : String) (rows store : List AuditRow)
    (hrows : ∀ r ∈ rows, r.model_type = mt) (hne : rows ≠ []) :
    replaceResults mt rows (replaceResults mt rows store) = rows := by
  have hmem : (replaceResults mt rows store).any (fun r => r.model_type == mt) = true := by
    obtain ⟨r, hr⟩ := List.exists_mem_of_ne_nil rows hne
    exact List.any_eq_true.mpr
      ⟨r, List.mem_append_right _ hr, by simp [hrows r hr]⟩
  rw [show replaceResults mt rows (replaceResults mt rows store) =
      (if (replaceResults mt rows store).any (fun r => r.model_type == mt) then []
       else replaceResults mt rows store) ++ rows from rfl,
    if_pos hmem, List.nil_append]

/-- C4: for every contract whose normalized item description matches a
market-price statistics row carrying standard deviation `s`, the z-score
is `0` when `s = 0` and `(unit_price - mean) / s` otherwise; the contract
is flagged anomalous iff `|z| > 2.5`; the stored `anomaly_score` equals
`|z|`; and when flagged with `z > 0` the explanation states an overpayment
amount equal to `(unit_price - mean) * quantity`. -/
theorem price_zscore_spec (stats : List StatsRow) (c : Contract) (row : StatsRow) (s : ℚ)
    (hrow : statsLookup stats (normalizeText c.item_description) = some row)
    (hstd : row.std = some s) :
    ((scoreContract stats c).is_anomaly = true ↔
      |if s = 0 then (0 : ℚ) else (c.unit_price - row.mean) / s| > 5 / 2) ∧
    (scoreContract stats c).anomaly_score =
      some |if s = 0 then (0 : ℚ) else (c.unit_price - row.mean) / s| ∧
    (|if s = 0 then (0 : ℚ) else (c.unit_price - row.mean) / s| > 5 / 2 →
      (if s = 0 then (0 : ℚ) else (c.unit_price - row.mean) / s) > 0 →
      (scoreContract stats c).explanation =
        .price (.above ((c.unit_price - row.mean) / row.mean * 100)
          (if s = 0 then (0 : ℚ) else (c.unit_price - row.mean) / s)
          ((c.unit_price - row.mean) * (c.quantity : ℚ)))) := by
  by_cases hs : s = 0
  · subst hs
    refine ⟨?_, ?_, ?_⟩ <;>
      simp only [scoreContract, hrow, hstd, if_pos rfl] <;>
      norm_num
  · have hred : scoreContract stats c =
      { tender_id := c.tender_id
        contract_id := some c.contract_id
        model_type := "price"
        is_anomaly := decide (|(c.unit_price - row.mean) / s| > 5 / 2)
        anomaly_score := some |(c.unit_price - row.mean) / s|
        explanation := .price
          (if |(c.unit_price - row.mean) / s| > 5 / 2 then
            (if (c.unit_price - row.mean) / s > 0 then
              .above ((c.unit_price - row.mean) / row.mean * 100)
                ((c.unit_price - row.mean) / s)
                ((c.unit_price - row.mean) * (c.quantity : ℚ))
             else .below ((row.mean - c.unit_price) / row.mean * 100)
               ((c.unit_price - row.mean) / s))
           else .withinRange (some ((c.unit_price - row.mean) / s))) } := by
      simp only [scoreContract, hrow, hstd, if_neg hs]
    rw [hred]
    simp only [if_neg hs]
    refine ⟨by simp [decide_eq_true_iff], by simp, ?_⟩
    intro h1 h2
    simp only [if_pos h1, if_pos h2]

/-- Witness for C4 at the concrete population of the claim: mean `100`,
standard deviation `10`, contract price `130` and quantity `7` give
z-score `3`, an anomaly flag, stored score `3` and a reported overpayment
of `(130 - 100) * 7 = 210`. -/
theorem price_zscore_spec_witness :
    (scoreContract [statWidget] cWidget).is_anomaly = true ∧
    (scoreContract [statWidget] cWidget).anomaly_score = some 3 ∧
    (scoreContract [statWidget] cWidget).explanation = .price (.above 30 3 210) := by
  have h := price_zscore_spec [statWidget] cWidget statWidget 10 (by decide) rfl
  have hz : (if (10 : ℚ) = 0 then (0 : ℚ)
      else (cWidget.unit_price - statWidget.mean) / 10) = 3 := by
    norm_num [cWidget, statWidget]
  rw [hz] at h
  refine ⟨h.1.mpr (by norm_num), ?_, ?_⟩
  · rw [h.2.1]
    norm_num
  · rw [h.2.2 (by norm_num) (by norm_num)]
    norm_num [cWidget, statWidget]

/-- C6: a contract whose normalized item description matches no
market-price population is stored as not anomalous with score `0` and an
explanation noting the missing market data, whatever its unit price and
quantity. -/
theorem price_no_population_spec (prices : List MarketPrice) (c : Contract)
    (h : ∀ p ∈ prices, normalizeText p.item_name ≠ normalizeText c.item_description) :
    scoreContract (marketStats prices) c =
      { tender_id := c.tender_id
        contract_id := some c.contract_id
        model_type := "price"
        is_anomaly := false
        anomaly_score := some 0
        explanation := .price (.noData c.item_description) } := by
  have hk : normalizeText c.item_description ∉ marketKeys prices := by
    simp only [marketKeys, List.mem_dedup, List.mem_map]
    rintro ⟨p, hp, hpk⟩
    exact h p hp hpk
  simp [scoreContract, statsLookup_marketStats_none prices _ hk]

/-- Witness for C6: a contract for `Widget` against a market table holding
only `Pen` prices is stored unflagged with score `0`. -/
theorem price_no_population_spec_witness :
    (scoreContract (marketStats [mpPen]) cWidget).is_anomaly = false ∧
    (scoreContract (marketStats [mpPen]) cWidget).anomaly_score = some 0 ∧
    (scoreContract (marketStats [mpPen]) cWidget).explanation =
      .price (.noData "Widget") := by
  rw [price_no_population_spec [mpPen] cWidget (by decide)]
  exact ⟨rfl, rfl, rfl⟩

/-- C5: when the market population matching a contract holds exactly one
sample, the pandas sample standard deviation of the statistics row is
`NaN` (not `0`), the `std == 0` guard is skipped, the z-score is `NaN`,
the contract is reported not anomalous, and the stored score is `NaN`
(modelled as `none`, not a real number). -/
theorem price_singleton_population_nan (prices : List MarketPrice) (c : Contract)
    (h1 : (groupVals prices (normalizeText c.item_description)).length = 1) :
    (mkStatsRow prices (normalizeText c.item_description)).std = none ∧
    (scoreContract (marketStats prices) c).is_anomaly = false ∧
    (scoreContract (marketStats prices) c).anomaly_score = none := by
  have hfil : (prices.filter
      (fun p => normalizeText p.item_name == normalizeText c.item_description)) ≠ [] := by
    intro habs
    rw [groupVals, habs] at h1
    simp at h1
  obtain ⟨p, hp⟩ := List.exists_mem_of_ne_nil _ hfil
  have hk : normalizeText c.item_description ∈ marketKeys prices := by
    simp only [marketKeys, List.mem_dedup, List.mem_map]
    exact ⟨p, List.mem_of_mem_filter hp,
      by simpa using List.of_mem_filter hp⟩
  have hstd : (mkStatsRow prices (normalizeText c.item_description)).std = none := by
    simp [mkStatsRow, pandasStd, h1]
  refine ⟨hstd, ?_, ?_⟩ <;>
    simp [scoreContract, statsLookup_marketStats prices _ hk, hstd]

/-- Witness for C5: one single market sample for `widget` gives a `NaN`
standard deviation and a `NaN` stored score for the matching contract. -/
theorem price_singleton_population_nan_witness :
    (mkStatsRow [mpWidget] (normalizeText cWidget.item_description)).std = none ∧
    (scoreContract (marketStats [mpWidget]) cWidget).is_anomaly = false ∧
    (scoreContract (marketStats [mpWidget]) cWidget).anomaly_score = none :=
  price_singleton_population_nan [mpWidget] cWidget (by decide)

/-- C10: a tender flagged by the isolation forest whose duration is at
least 14 days, with more than 2 bidders, procured by the `Open` method,
triggers no heuristic reason, and its stored explanation is the empty
string rather than a human-readable message. -/
theorem process_flagged_without_reasons_empty_explanation
    (forest : List (Int × Int × ℕ) → List (Bool × ℚ)) (tenders : List Tender) (i : ℕ)
    (hi : i < tenders.length) (hi2 : i < (processRows forest tenders).length)
    (hflag : ((processRows forest tenders).get ⟨i, hi2⟩).is_anomaly = true)
    (hdur : 14 ≤ (tenders.get ⟨i, hi⟩).tender_duration_days)
    (hbid : 2 < (tenders.get ⟨i, hi⟩).number_of_bidders)
    (hmeth : (tenders.get ⟨i, hi⟩).procurement_method = "Open") :
    processReasons (tenders.get ⟨i, hi⟩) = [] ∧
    ((processRows forest tenders).get ⟨i, hi2⟩).explanation = Expl.plain "" := by
  have hiF : i < (forest (tenders.map (featVec tenders))).length := by
    have := hi2
    simp only [processRows, List.length_map, List.length_zip] at this
    omega
  have hget : (processRows forest tenders).get ⟨i, hi2⟩ =
      processRowFor (tenders.get ⟨i, hi⟩)
        ((forest (tenders.map (featVec tenders))).get ⟨i, hiF⟩).1
        ((forest (tenders.map (featVec tenders))).get ⟨i, hiF⟩).2 := by
    simp only [processRows, List.get_eq_getElem, List.getElem_map, List.getElem_zip]
  have hreasons : processReasons (tenders.get ⟨i, hi⟩) = [] := by
    unfold processReasons
    have hm2 := hmeth
    simp only [List.get_eq_getElem] at hm2
    rw [if_neg (by omega), if_neg (by omega), if_neg (by simp [hm2])]
    simp
  refine ⟨hreasons, ?_⟩
  rw [hget] at hflag ⊢
  simp only [processRowFor] at hflag ⊢
  rw [if_pos hflag, hreasons]
  rfl

/-- Witness for C10: a flagged tender with duration `20`, `5` bidders and
the `Open` method is stored with the empty-string explanation. -/
theorem process_flagged_without_reasons_empty_explanation_witness :
    processReasons (([tOpen] : List Tender).get ⟨0, by simp⟩) = [] ∧
    ((processRows forestFlagOne [tOpen]).get ⟨0, by simp [processRows, forestFlagOne]⟩).explanation =
      Expl.plain "" :=
  process_flagged_without_reasons_empty_explanation forestFlagOne [tOpen] 0
    (by simp) (by simp [processRows, forestFlagOne])
    (by simp [processRows, forestFlagOne, processRowFor, featVec])
    (by simp [tOpen]) (by simp [tOpen]) (by simp [tOpen])

theorem processRows_model_type (forest : List (Int × Int × ℕ) → List (Bool × ℚ))
    (tenders : List Tender) :
    ∀ r ∈ processRows forest tenders, r.model_type = "process" := by
  intro r hr
  simp only [processRows, List.mem_map] at hr
  obtain ⟨p, _, rfl⟩ := hr
  rfl

theorem scoreContract_model_type (stats : List StatsRow) (c : Contract) :
    (scoreContract stats c).model_type = "price" := by
  rcases h : statsLookup stats (normalizeText c.item_description) with _ | row
  · simp [scoreContract, h]
  · rcases hstd : row.std with _ | s
    · simp [scoreContract, h, hstd]
    · by_cases hs : s = 0 <;> simp [scoreContract, h, hstd, hs]

theorem priceRows_model_type (contracts : List Contract) (prices : List MarketPrice) :
    ∀ r ∈ priceRows contracts prices, r.model_type = "price" := by
  intro r hr
  simp only [priceRows, List.mem_map] at hr
  obtain ⟨c, _, rfl⟩ := hr
  exact scoreContract_model_type _ c

theorem textRows_model_type (tfidf : String → List ℚ) (tenders : List Tender) :
    ∀ r ∈ textRows tfidf tenders, r.model_type = "text" := by
  intro r hr
  simp only [textRows, List.mem_map] at hr
  obtain ⟨t, _, rfl⟩ := hr
  rfl

/-- C9: running any single detector twice in succession on unchanged data
stores identical results on both runs: after either run, the stored rows
of that detector's model type are exactly the rows computed from the
input — with the same tender and contract identifiers, anomaly flags,
scores and explanations — because each detector is a pure function of its
input once the isolation forest's randomness is fixed by
`random_state=42` (the `forest` and `tfidf` parameters). -/
theorem detector_rerun_reproducible
    (forest : List (Int × Int × ℕ) → List (Bool × ℚ)) (tfidf : String → List ℚ)
    (tenders : List Tender) (contracts : List Contract) (prices : List MarketPrice)
    (store : List AuditRow) :
    ((processRun forest tenders store).filter (fun r => r.model_type == "process") =
        processRows forest tenders ∧
      (processRun forest tenders (processRun forest tenders store)).filter
        (fun r => r.model_type == "process") = processRows forest tenders) ∧
    ((priceRun contracts prices store).filter (fun r => r.model_type == "price") =
        priceRows contracts prices ∧
      (priceRun contracts prices (priceRun contracts prices store)).filter
        (fun r => r.model_type == "price") = priceRows contracts prices) ∧
    ((textRun tfidf tenders store).filter (fun r => r.model_type == "text") =
        textRows tfidf tenders ∧
      (textRun tfidf tenders (textRun tfidf tenders store)).filter
        (fun r => r.model_type == "text") = textRows tfidf tenders) :=
  ⟨⟨replaceResults_filter_self _ _ _ (processRows_model_type forest tenders),
    replaceResults_filter_self _ _ _ (processRows_model_type forest tenders)⟩,
   ⟨replaceResults_filter_self _ _ _ (priceRows_model_type contracts prices),
    replaceResults_filter_self _ _ _ (priceRows_model_type contracts prices)⟩,
   ⟨replaceResults_filter_self _ _ _ (textRows_model_type tfidf tenders),
    replaceResults_filter_self _ _ _ (textRows_model_type tfidf tenders)⟩⟩

/-- Counterexample to C3: one normal tender compared against one normal
process prediction is a single compared record, yet the code's confusion
counts are `(0,0,0,0)` (the 1x1 `confusion_matrix` fails the `size == 4`
test), so `tn+fp+fn+tp = 0` differs from the one compared record, and the
accuracy `1.0` differs from `(tp+tn)/total = 0`. -/
theorem cm_counts_degenerate_counterexample :
    (evalPairs [tOpen] [procRowNormal]).length = 1 ∧
    cmCounts (evalPairs [tOpen] [procRowNormal]) = (0, 0, 0, 0) ∧
    ¬((cmCounts (evalPairs [tOpen] [procRowNormal])).1 +
        (cmCounts (evalPairs [tOpen] [procRowNormal])).2.1 +
        (cmCounts (evalPairs [tOpen] [procRowNormal])).2.2.1 +
        (cmCounts (evalPairs [tOpen] [procRowNormal])).2.2.2 =
      (evalPairs [tOpen] [procRowNormal]).length) ∧
    accuracyQ (evalPairs [tOpen] [procRowNormal]) = 1 := by
  have hpairs : evalPairs [tOpen] [procRowNormal] = [(false, false)] := by decide
  refine ⟨by rw [hpairs]; rfl, by decide, by decide, ?_⟩
  rw [hpairs]
  norm_num [accuracyQ, List.filter]

/-- C3 (amended): whenever the compared labels contain both an anomalous
and a non-anomalous value (so scikit-learn's confusion matrix is `2 x 2`;
otherwise the code reports `(0,0,0,0)`), the confusion counts sum to the
number of compared records — the prediction sequence aligned by position
against the equally long truncated ground truth, assuming no more
predictions than tenders (otherwise scikit-learn rejects the comparison) —
and the accuracy equals `(tp+tn)/total` over those records. -/
theorem cm_counts_sum_and_accuracy (tenders : List Tender) (store : List AuditRow)
    (hlen : (processPreds store).length ≤ tenders.length)
    (h2 : twoClasses (evalPairs tenders store) = true) :
    (cmCounts (evalPairs tenders store)).1 + (cmCounts (evalPairs tenders store)).2.1 +
      (cmCounts (evalPairs tenders store)).2.2.1 +
      (cmCounts (evalPairs tenders store)).2.2.2 =
      (evalPairs tenders store).length ∧
    (evalPairs tenders store).length = (processPreds store).length ∧
    accuracyQ (evalPairs tenders store) =
      (((cmCounts (evalPairs tenders store)).2.2.2 +
        (cmCounts (evalPairs tenders store)).1 : ℕ) : ℚ) /
      ((evalPairs tenders store).length : ℚ) := by
  simp only [cmCounts, h2, if_pos]
  refine ⟨rawCounts_sum _, ?_, ?_⟩
  · simp only [evalPairs, List.length_zip, List.length_take, List.length_map]
    omega
  · rw [accuracyQ, rawCounts_agree]

/-- Witness for C3 (amended) on two tenders and two stored process rows
producing one true positive and one true negative: counts sum to the two
compared records and the accuracy equals `(tp+tn)/total = 1`. -/
theorem cm_counts_sum_and_accuracy_witness :
    (cmCounts (evalPairs [tShort, tOpen] [procRowFlag, procRowNormal])).1 +
      (cmCounts (evalPairs [tShort, tOpen] [procRowFlag, procRowNormal])).2.1 +
      (cmCounts (evalPairs [tShort, tOpen] [procRowFlag, procRowNormal])).2.2.1 +
      (cmCounts (evalPairs [tShort, tOpen] [procRowFlag, procRowNormal])).2.2.2 =
      (evalPairs [tShort, tOpen] [procRowFlag, procRowNormal]).length ∧
    (evalPairs [tShort, tOpen] [procRowFlag, procRowNormal]).length =
      (processPreds [procRowFlag, procRowNormal]).length ∧
    accuracyQ (evalPairs [tShort, tOpen] [procRowFlag, procRowNormal]) =
      (((cmCounts (evalPairs [tShort, tOpen] [procRowFlag, procRowNormal])).2.2.2 +
        (cmCounts (evalPairs [tShort, tOpen] [procRowFlag, procRowNormal])).1 : ℕ) : ℚ) /
      ((evalPairs [tShort, tOpen] [procRowFlag, procRowNormal]).length : ℚ) :=
  cm_counts_sum_and_accuracy [tShort, tOpen] [procRowFlag, procRowNormal]
    (by decide) (by decide)

theorem matchedFor_ne_nil_iff (tfidf : String → List ℚ) (tenders : List Tender)
    (t : Tender) :
    matchedFor tfidf tenders t ≠ [] ↔
      ∃ p ∈ tenders.zip (simRow tfidf (tenders.map combinedText) (combinedText t)),
        (17/20 : ℚ) < p.2 ∧ p.2 < 1 := by
  rw [ne_eq, matchedFor, List.filter_eq_nil_iff]
  push_neg
  constructor <;>
    (rintro ⟨a, ha, hp⟩; exact ⟨a, ha, by simpa using hp⟩)

theorem detectedBrands_ne_nil_iff (t : Tender) :
    detectedBrands t ≠ [] ↔
      ∃ b ∈ brandKeywords, containsSub (toLowerStr (combinedText t)) b = true := by
  rw [ne_eq, detectedBrands, List.filter_eq_nil_iff]
  push_neg
  constructor <;>
    (rintro ⟨a, ha, hp⟩; exact ⟨a, ha, by simpa using hp⟩)

theorem textRowFor_is_anomaly (tfidf : String → List ℚ) (tenders : List Tender)
    (t : Tender) :
    (textRowFor tfidf tenders t).is_anomaly =
      (!(detectedBrands t).isEmpty || !(matchedFor tfidf tenders t).isEmpty) := rfl

theorem textRowFor_score (tfidf : String → List ℚ) (tenders : List Tender)
    (t : Tender) :
    (textRowFor tfidf tenders t).anomaly_score =
      some (min ((if !(detectedBrands t).isEmpty then (1 : ℚ)/2 else 0) +
        (if !(matchedFor tfidf tenders t).isEmpty then
          maxQ ((matchedFor tfidf tenders t).map (fun p => p.2)) else 0)) 1) := rfl

/-- C8: a tender's stored text result is anomalous iff the brand-bias
signal (a brand keyword occurring case-insensitively in the combined
text) or the collusion signal (a similarity strictly between `0.85` and
`1.0`) is present, and the stored score is the minimum of `1.0` and the
sum of `0.5` for brand bias (else `0`) plus the maximum similarity among
matched collusion candidates (`0` when there are none). -/
theorem text_anomaly_and_score_spec (tfidf : String → List ℚ) (tenders : List Tender)
    (i : ℕ) (hi : i < tenders.length) (hi2 : i < (textRows tfidf tenders).length) :
    (((textRows tfidf tenders).get ⟨i, hi2⟩).is_anomaly = true ↔
      (∃ b ∈ brandKeywords,
        containsSub (toLowerStr (combinedText (tenders.get ⟨i, hi⟩))) b = true) ∨
      (∃ p ∈ tenders.zip
          (simRow tfidf (tenders.map combinedText) (combinedText (tenders.get ⟨i, hi⟩))),
        (17/20 : ℚ) < p.2 ∧ p.2 < 1)) ∧
    ((textRows tfidf tenders).get ⟨i, hi2⟩).anomaly_score =
      some (min 1
        ((if detectedBrands (tenders.get ⟨i, hi⟩) ≠ [] then (1 : ℚ)/2 else 0) +
         (if matchedFor tfidf tenders (tenders.get ⟨i, hi⟩) ≠ [] then
            maxQ ((matchedFor tfidf tenders (tenders.get ⟨i, hi⟩)).map (fun p => p.2))
          else 0))) := by
  have hget : (textRows tfidf tenders).get ⟨i, hi2⟩ =
      textRowFor tfidf tenders (tenders.get ⟨i, hi⟩) := by
    simp only [textRows, List.get_eq_getElem, List.getElem_map]
  rw [hget, textRowFor_is_anomaly, textRowFor_score]
  constructor
  · rw [Bool.or_eq_true, Bool.not_eq_true', Bool.not_eq_true',
      List.isEmpty_eq_false, List.isEmpty_eq_false,
      detectedBrands_ne_nil_iff, matchedFor_ne_nil_iff]
  · rw [min_comm]
    by_cases hb : detectedBrands (tenders.get ⟨i, hi⟩) = [] <;>
      by_cases hc : matchedFor tfidf tenders (tenders.get ⟨i, hi⟩) = [] <;>
        simp [hb, hc, List.isEmpty_eq_false]

/-- Witness for C8: the single `Dell` tender is flagged for brand bias
(its self-similarity of exactly `1.0` yields no collusion match) and its
stored score is `min 1 (0.5 + 0) = 0.5`. -/
theorem text_anomaly_and_score_spec_witness :
    (((textRows tfOne [tBrand]).get ⟨0, by simp [textRows]⟩).is_anomaly = true ↔
      (∃ b ∈ brandKeywords,
        containsSub (toLowerStr (combinedText (([tBrand] : List Tender).get ⟨0, by simp⟩))) b
          = true) ∨
      (∃ p ∈ ([tBrand] : List Tender).zip
          (simRow tfOne (([tBrand] : List Tender).map combinedText)
            (combinedText (([tBrand] : List Tender).get ⟨0, by simp⟩))),
        (17/20 : ℚ) < p.2 ∧ p.2 < 1)) ∧
    ((textRows tfOne [tBrand]).get ⟨0, by simp [textRows]⟩).anomaly_score =
      some (min 1
        ((if detectedBrands (([tBrand] : List Tender).get ⟨0, by simp⟩) ≠ [] then (1 : ℚ)/2
          else 0) +
         (if matchedFor tfOne [tBrand] (([tBrand] : List Tender).get ⟨0, by simp⟩) ≠ [] then
            maxQ ((matchedFor tfOne [tBrand]
              (([tBrand] : List Tender).get ⟨0, by simp⟩)).map (fun p => p.2))
          else 0))) :=
  text_anomaly_and_score_spec tfOne [tBrand] 0 (by simp) (by simp [textRows])

/-- Counterexample to C7: two distinct tenders with identical descriptions
have pairwise cosine similarity exactly `1.0`, which the filter
`0.85 < sim < 1.0` excludes, so neither counts as a collusion match for
the other — the exclusion is not limited to self-similarity — and with no
brand keyword present neither tender is flagged at all. -/
theorem identical_tenders_no_collusion_counterexample :
    tD1.tender_id ≠ tD2.tender_id ∧
    combinedText tD1 = combinedText tD2 ∧
    cosineSim (tfOne (combinedText tD1)) (tfOne (combinedText tD2)) = 1 ∧
    matchedFor tfOne [tD1, tD2] tD1 = [] ∧
    matchedFor tfOne [tD1, tD2] tD2 = [] ∧
    ((textRows tfOne [tD1, tD2]).get ⟨0, by simp [textRows]⟩).is_anomaly = false := by
  have hcos : cosineSim (1 :: ([] : List ℚ)) (1 :: ([] : List ℚ)) = 1 :=
    cosineSim_self _ (by norm_num [dotQ])
  have hm1 : matchedFor tfOne [tD1, tD2] tD1 = [] := by
    norm_num [matchedFor, simRow, tfOne, hcos, List.filter]
  have hm2 : matchedFor tfOne [tD1, tD2] tD2 = [] := by
    norm_num [matchedFor, simRow, tfOne, hcos, List.filter]
  refine ⟨by decide, rfl, hcos, hm1, hm2, ?_⟩
  have hget : (textRows tfOne [tD1, tD2]).get ⟨0, by simp [textRows]⟩ =
      textRowFor tfOne [tD1, tD2] tD1 := by
    simp [textRows]
  rw [hget, textRowFor_is_anomaly, hm1]
  have hbr : detectedBrands tD1 = [] := by decide
  rw [hbr]
  rfl

/-- C7 (amended): the collusion signal fires iff some position of the
similarity row lies strictly between `0.85` and `1.0`; every pair whose
similarity is exactly `1.0` is excluded, not only the tender's
self-similarity — in particular any tender sharing the same combined text
(identical description and specs, nonzero vector) has pairwise similarity
exactly `1.0`, at or above the `0.85` bound, yet never counts as a
collusion match. -/
theorem collusion_band_spec (tfidf : String → List ℚ) (tenders : List Tender)
    (t u : Tender) (_hu : u ∈ tenders)
    (hid : combinedText u = combinedText t)
    (hnz : dotQ (tfidf (combinedText t)) (tfidf (combinedText t)) ≠ 0) :
    (matchedFor tfidf tenders t ≠ [] ↔
      ∃ p ∈ tenders.zip (simRow tfidf (tenders.map combinedText) (combinedText t)),
        (17/20 : ℚ) < p.2 ∧ p.2 < 1) ∧
    cosineSim (tfidf (combinedText t)) (tfidf (combinedText u)) = 1 ∧
    (∀ s : ℚ, (u, s) ∉ matchedFor tfidf tenders t) := by
  refine ⟨matchedFor_ne_nil_iff tfidf tenders t, ?_, ?_⟩
  · rw [hid]
    exact cosineSim_self _ hnz
  · intro s hmem
    rw [matchedFor, List.mem_filter] at hmem
    obtain ⟨hzip, hcond⟩ := hmem
    have hs1 : s < 1 := by
      have := (Bool.and_eq_true _ _).mp hcond
      simpa using this.2
    obtain ⟨⟨i, hilen⟩, hget⟩ := List.get_of_mem hzip
    have hlt : i < tenders.length := by
      rw [List.length_zip] at hilen
      omega
    have hlt2 : i < (simRow tfidf (tenders.map combinedText) (combinedText t)).length := by
      rw [List.length_zip] at hilen
      omega
    rw [List.get_eq_getElem, List.getElem_zip] at hget
    have hti : tenders[i] = u := ((Prod.mk.injEq _ _ _ _).mp hget).1
    have hsi : (simRow tfidf (tenders.map combinedText) (combinedText t))[i] = s :=
      ((Prod.mk.injEq _ _ _ _).mp hget).2
    simp only [simRow, List.getElem_map] at hsi
    rw [hti, hid] at hsi
    rw [cosineSim_self _ hnz] at hsi
    rw [← hsi] at hs1
    exact absurd hs1 (lt_irrefl 1)

/-- Witness for C7 (amended) on the two identical-text tenders: their
pairwise similarity is exactly `1` and the second never appears among the
collusion matches of the first. -/
theorem collusion_band_spec_witness :
    (matchedFor tfOne [tD1, tD2] tD1 ≠ [] ↔
      ∃ p ∈ ([tD1, tD2] : List Tender).zip
          (simRow tfOne (([tD1, tD2] : List Tender).map combinedText) (combinedText tD1)),
        (17/20 : ℚ) < p.2 ∧ p.2 < 1) ∧
    cosineSim (tfOne (combinedText tD1)) (tfOne (combinedText tD2)) = 1 ∧
    (∀ s : ℚ, (tD2, s) ∉ matchedFor tfOne [tD1, tD2] tD1) :=
  collusion_band_spec tfOne [tD1, tD2] tD1 tD2 (by simp) rfl
    (by norm_num [dotQ, tfOne])

/-- C1 fails on the code: with a price row and a process row in the store,
rerunning the process detector triggers `AuditResultDB.delete_all()`,
which clears the whole `audit_results` table, so the stored price row —
whose model type differs from the running detector's — is gone after the
run. -/
theorem process_rerun_wipes_other_model_types :
    priceRowOld.model_type ≠ "process" ∧
    priceRowOld ∈ [priceRowOld, procRowNormal] ∧
    priceRowOld ∉ processRun forestFlagOne [tOpen] [priceRowOld, procRowNormal] := by
  refine ⟨by decide, by simp, ?_⟩
  intro hmem
  simp only [processRun, replaceResults, processRows, forestFlagOne] at hmem
  rw [if_pos (by decide)] at hmem
  simp only [List.nil_append, List.map_cons, List.map_nil, List.zip_cons_cons,
    List.zip_nil_right, List.mem_cons, List.not_mem_nil, or_false] at hmem
  exact absurd (congrArg AuditRow.model_type hmem) (by decide)

/-- C2 fails on the code: the `except Exception` wrapper catches the
`HTTPException(404)` raised for empty input and re-raises
`HTTPException(500, str(e))`, so every empty-input failure of the four
operations reaches the API boundary with status `500` — the same status
as the generic computation-failure response — instead of a distinct
not-found response. -/
theorem empty_input_collapses_to_500 :
    processEndpoint forestFlagOne [] [] =
      .error (.httpExc 500 "404: No tenders found") ∧
    priceEndpoint [] [] [] = .error (.httpExc 500 "404: No contracts found") ∧
    priceEndpoint [cWidget] [] [] =
      .error (.httpExc 500 "404: No market prices found") ∧
    textEndpoint tfOne [] [] = .error (.httpExc 500 "404: No tenders found") ∧
    evalEndpoint [] [] =
      .error (.httpExc 500 "404: No data available for evaluation") ∧
    (wrapEndpoint (.error (.other "unexpected failure")) : Except Exn Unit) =
      .error (.httpExc 500 "unexpected failure") :=
  ⟨rfl, rfl, rfl, rfl, rfl, rfl⟩

